import Mathlib

/-!
Verification development for the tapir-rn communication core.

The definitions below are a shallow embedding of the TypeScript sources:
  * `src/src/services/BleService.ts`   (framing codec, write queue, notifications)
  * `src/src/services/VoiceService.ts` (push-to-talk voice pipeline)
  * `src/src/stores/DeviceStore.ts`    (connection state machine)
  * `src/src/types/protocol.ts`        (protocol constants)

Byte sequences are modelled as `List Nat` (each element a byte value), frames on
the wire as `List (List Nat)`.  JavaScript numbers used as machine integers are
modelled as `Nat` with explicit `% 256` / `% 65536` masks mirroring the `& 0xff`
style operations of the source, and as `Int` where JS subtraction may go
negative (`Math.abs(sequence - expected)`).  Logging calls (`console.*`) and
event emission are pure I/O and are not part of the state.
-/

namespace Tapir

/-! ## Protocol constants (`protocol.ts`, `BleService.ts`) -/

/-- `MAX_CHUNK_SIZE = 506` from BleService.ts. -/
def MAX_CHUNK_SIZE : Nat := 506

/-- `CATEGORY_ID = 0x1f` from protocol.ts. -/
def CATEGORY_ID : Nat := 0x1f

/-- `WRITE_TIMEOUT_MS = 5000` from BleService.ts. -/
def WRITE_TIMEOUT_MS : Nat := 5000

/-- `DEFAULT_MTU = 23` from BleService.ts. -/
def DEFAULT_MTU : Nat := 23

namespace PacketFlag

/-- `PacketFlag.COMPLETE = 0x00`. -/
def COMPLETE : Nat := 0x00

/-- `PacketFlag.FIRST = 0x01`. -/
def FIRST : Nat := 0x01

/-- `PacketFlag.CONTINUE = 0x02`. -/
def CONTINUE : Nat := 0x02

/-- `PacketFlag.LAST = 0x03`. -/
def LAST : Nat := 0x03

end PacketFlag

namespace MessageType

/-- `MessageType.ECHO = 0x30`. -/
def ECHO : Nat := 0x30

/-- `MessageType.VOICE_START = 0x60`. -/
def VOICE_START : Nat := 0x60

/-- `MessageType.VOICE_DATA = 0x61`. -/
def VOICE_DATA : Nat := 0x61

/-- `MessageType.VOICE_END = 0x62`. -/
def VOICE_END : Nat := 0x62

/-- `MessageType.AUDIO_HEADPHONES = 0x63`. -/
def AUDIO_HEADPHONES : Nat := 0x63

end MessageType

/-! ## Framing codec: `BleService.doSendSerialData`

The fragmentation loop of `doSendSerialData` (BleService.ts lines 403-448).
`totalLen` is `data.length` of the whole payload, `isFirst` the loop variable of
the same name, and `rest` the not-yet-sent suffix `data.subarray(offset)`.
Each produced frame is the packet handed to `writeWithoutResponse`. -/
def fragFrames (totalLen : Nat) (isFirst : Bool) (rest : List Nat) : List (List Nat) :=
  if h : rest = [] then
    []
  else
    if isFirst then
      ([CATEGORY_ID, PacketFlag.FIRST, totalLen % 256, totalLen / 256 % 256] ++
          rest.take (min rest.length MAX_CHUNK_SIZE)) ::
        fragFrames totalLen false (rest.drop (min rest.length MAX_CHUNK_SIZE))
    else if rest.length ≤ MAX_CHUNK_SIZE then
      ([CATEGORY_ID, PacketFlag.LAST] ++ rest) ::
        fragFrames totalLen false (rest.drop rest.length)
    else
      ([CATEGORY_ID, PacketFlag.CONTINUE] ++ rest.take MAX_CHUNK_SIZE) ::
        fragFrames totalLen false (rest.drop MAX_CHUNK_SIZE)
termination_by rest.length
decreasing_by
  · have hlen : 0 < rest.length := List.length_pos.mpr h
    simp only [List.length_drop]
    have hm : 0 < MAX_CHUNK_SIZE := by decide
    omega
  · have hlen : 0 < rest.length := List.length_pos.mpr h
    simp only [List.length_drop]
    omega
  · have hlen : 0 < rest.length := List.length_pos.mpr h
    simp only [List.length_drop]
    have hm : 0 < MAX_CHUNK_SIZE := by decide
    omega

/-- `BleService.doSendSerialData` (BleService.ts lines 383-449): the exact
sequence of packets written to the data characteristic for payload `data`.
A payload of at most `MAX_CHUNK_SIZE` bytes goes out as one COMPLETE packet
carrying a 2-byte little-endian total length; larger payloads take the
fragmentation loop `fragFrames`. -/
def doSendSerialData (data : List Nat) : List (List Nat) :=
  if data.length ≤ MAX_CHUNK_SIZE then
    [[CATEGORY_ID, PacketFlag.COMPLETE, data.length % 256, data.length / 256 % 256] ++ data]
  else
    fragFrames data.length true data

/-! ## Receive path: `BleService.handleNotification`

`handleNotification` (BleService.ts lines 478-518) parses one raw notification
value.  It either warns and drops the packet, routes a voice/audio message to
`voiceService` via `handleVoiceMessage` (lines 528-558), or hands a
`ReceivedMessage` to the registered `onMessage` callback.  The effect of one
notification is modelled as an `RxEffect`. -/
inductive RxEffect
  | dropTooShort
  | dropFragmented (flag : Nat)
  | dropEmpty
  | voiceStart
  | voiceData (payload : List Nat)
  | voiceEnd
  | audioHeadphones (connected : Bool)
  | deliver (msgType : Nat) (payload : List Nat)
deriving DecidableEq

/-- `BleService.handleVoiceMessage` (BleService.ts lines 528-558): the switch on
the message type byte.  Returns `some effect` when the message is intercepted
for the voice/audio services, `none` when it falls through to the generic
callback. -/
def handleVoiceMessage (msgType : Nat) (payload : List Nat) : Option RxEffect :=
  if msgType = MessageType.VOICE_START then
    some RxEffect.voiceStart
  else if msgType = MessageType.VOICE_DATA then
    some (RxEffect.voiceData payload)
  else if msgType = MessageType.VOICE_END then
    some RxEffect.voiceEnd
  else if msgType = MessageType.AUDIO_HEADPHONES then
    some (RxEffect.audioHeadphones (payload.getD 0 0 == 1))
  else
    none

/-- `BleService.handleNotification` (BleService.ts lines 478-518).  Packets
shorter than 4 bytes are dropped; any flag other than COMPLETE is dropped with
a warning (fragment reassembly is an unimplemented TODO in the source); an
empty reassembled payload is ignored; otherwise the first payload byte is the
message type and the remainder the message payload. -/
def handleNotification (value : List Nat) : RxEffect :=
  if value.length < 4 then
    RxEffect.dropTooShort
  else
    let flag := value.getD 1 0
    let payload := value.drop 4
    if flag ≠ PacketFlag.COMPLETE then
      RxEffect.dropFragmented flag
    else if 1 ≤ payload.length then
      let msgType := payload.getD 0 0
      let msgPayload := payload.drop 1
      match handleVoiceMessage msgType msgPayload with
      | some e => e
      | none => RxEffect.deliver msgType msgPayload
    else
      RxEffect.dropEmpty

/-- Feeding a sequence of raw frames, in order, to `handleNotification`. -/
def rxRun (frames : List (List Nat)) : List RxEffect :=
  frames.map handleNotification

/-- The messages that reach the registered `onMessage` callback, as
`(type, payload)` pairs, in order. -/
def deliveredMessages (effs : List RxEffect) : List (Nat × List Nat) :=
  effs.filterMap fun e =>
    match e with
    | RxEffect.deliver t p => some (t, p)
    | _ => none

/-! ## Pacing write queue: `BleService.sendSerialData` / `processWriteQueue`

`sendSerialData` (lines 334-348) pushes a `WriteQueueItem` and starts the
single drain worker if none is active; `processWriteQueue` (lines 353-378)
shifts items off the front one at a time, rejects an item whose backlog wait
exceeded `WRITE_TIMEOUT_MS`, and otherwise writes all its frames via
`doSendSerialData` before moving on.  This is modelled as a small-step system:
each step is either a producer enqueue or one action of the drain worker; the
`served` field is a ghost log of completed items in service order, `enqueued`
a ghost log of all submissions in submission order. -/
structure WriteItem where
  id : Nat
  data : List Nat
  timestamp : Nat
deriving DecidableEq

/-- How a queued item's completion handle was settled:
`resolve()` (`ok`), `reject(Write timeout)` (`timeout`), or
`reject(error)` from a failed frame write (`writeError`). -/
inductive WriteOutcome
  | ok
  | timeout
  | writeError
deriving DecidableEq

/-- One completed item: which frames of it reached the transport, and how its
completion handle was settled. -/
structure ServedEntry where
  item : WriteItem
  written : List (List Nat)
  outcome : WriteOutcome
deriving DecidableEq

structure WQState where
  queue : List WriteItem
  isWriting : Bool
  current : Option (WriteItem × List (List Nat) × List (List Nat))
  wire : List (List Nat)
  served : List ServedEntry
  enqueued : List WriteItem
  nextId : Nat
deriving DecidableEq

/-- Events: `enq` is a call to `sendSerialData` at time `now`; `take` is the
worker shifting the next queue item (with the dequeue-time timeout check);
`write` is one successful `writeWithoutResponse` of the current item's next
frame; `fail` is a thrown frame write (rejecting the item); `finish` is the
worker observing an empty queue and clearing `isWriting`. -/
inductive WQEv
  | enq (data : List Nat) (now : Nat)
  | take (now : Nat)
  | write
  | fail
  | finish
deriving DecidableEq

def wqStep (s : WQState) : WQEv → WQState
  | WQEv.enq d now =>
    { s with
      queue := s.queue ++ [{ id := s.nextId, data := d, timestamp := now }],
      enqueued := s.enqueued ++ [{ id := s.nextId, data := d, timestamp := now }],
      nextId := s.nextId + 1,
      isWriting := true }
  | WQEv.take now =>
    match s.current, s.queue with
    | none, it :: rest =>
      if s.isWriting then
        if it.timestamp + WRITE_TIMEOUT_MS < now then
          { s with
            queue := rest,
            served := s.served ++
              [{ item := it, written := [], outcome := WriteOutcome.timeout }] }
        else
          { s with queue := rest, current := some (it, doSendSerialData it.data, []) }
      else s
    | _, _ => s
  | WQEv.write =>
    match s.current with
    | some (it, f :: fs, w) =>
      match fs with
      | [] =>
        { s with
          wire := s.wire ++ [f],
          current := none,
          served := s.served ++
            [{ item := it, written := w ++ [f], outcome := WriteOutcome.ok }] }
      | _ :: _ =>
        { s with wire := s.wire ++ [f], current := some (it, fs, w ++ [f]) }
    | some (it, [], w) =>
      { s with
        current := none,
        served := s.served ++ [{ item := it, written := w, outcome := WriteOutcome.ok }] }
    | none => s
  | WQEv.fail =>
    match s.current with
    | some (it, _, w) =>
      { s with
        current := none,
        served := s.served ++
          [{ item := it, written := w, outcome := WriteOutcome.writeError }] }
    | none => s
  | WQEv.finish =>
    match s.current, s.queue with
    | none, [] => { s with isWriting := false }
    | _, _ => s

def wqInit : WQState :=
  { queue := [], isWriting := false, current := none, wire := [], served := [],
    enqueued := [], nextId := 0 }

def wqRun (evs : List WQEv) : WQState :=
  evs.foldl wqStep wqInit

/-- Frames already written for the item currently being drained. -/
def currentWritten (s : WQState) : List (List Nat) :=
  match s.current with
  | some (_, _, w) => w
  | none => []

/-- The item currently being drained, as a (zero- or one-element) list. -/
def currentItems (s : WQState) : List WriteItem :=
  match s.current with
  | some (it, _, _) => [it]
  | none => []

/-- The write-queue invariant: the wire is exactly the concatenation of the
per-item frame blocks in service order (plus the block in progress); service
order followed by the in-progress item and the backlog is exactly submission
order; a successfully completed item had all frames of `doSendSerialData` of
its payload written; the in-progress item's written and pending frames
partition its frame list; and the worker flag is only down when nothing is in
flight and the backlog is empty. -/
def wqInv (s : WQState) : Prop :=
  s.wire = (s.served.map ServedEntry.written).flatten ++ currentWritten s
  ∧ s.served.map ServedEntry.item ++ currentItems s ++ s.queue = s.enqueued
  ∧ (∀ e ∈ s.served, e.outcome = WriteOutcome.ok → e.written = doSendSerialData e.item.data)
  ∧ (∀ it fs w, s.current = some (it, fs, w) → w ++ fs = doSendSerialData it.data)
  ∧ (s.isWriting = false → s.current = none ∧ s.queue = [])

/-- A concrete demonstration trace: two enqueues drained in order. -/
def wqDemo : List WQEv :=
  [WQEv.enq [48, 1] 0, WQEv.enq [48, 2] 0, WQEv.take 10, WQEv.write,
   WQEv.take 20, WQEv.write, WQEv.finish]

/-- A concrete state holding one backlogged item, enqueued at time 0. -/
def wqOneItemState : WQState := wqRun [WQEv.enq [48, 7] 0]

/-! ## Connection state machine: `DeviceStore` (`stores/DeviceStore.ts`) -/

/-- `ConnectionState` from protocol.ts. -/
inductive ConnectionState
  | disconnected
  | scanning
  | connecting
  | connected
  | ready
deriving DecidableEq

/-- The sequence of assignments to `DeviceStore.connectionState` performed by
one call to `DeviceStore.connect` (DeviceStore.ts): if already connected it
first disconnects (`handleDisconnect` sets DISCONNECTED), then sets CONNECTING,
awaits `bleService.connect` (which performs link establishment, service
discovery, MTU read-back, priority request, characteristic lookup and
notification subscription without touching `connectionState`), and finally
sets READY on success or DISCONNECTED on a caught error. -/
def deviceStoreConnectTrace (alreadyConnected : Bool) (success : Bool) :
    List ConnectionState :=
  (if alreadyConnected then [ConnectionState.disconnected] else []) ++
    [ConnectionState.connecting] ++
    (if success then [ConnectionState.ready] else [ConnectionState.disconnected])

/-! ## Teardown: `BleService.cleanup` -/

/-- The fields of `BleService` touched by `cleanup` (BleService.ts lines
564-570).  `device`/`dataCharacteristic` are modelled as opaque handles. -/
structure BleState where
  device : Option Nat
  dataCharacteristic : Option Nat
  mtu : Nat
  writeQueue : List WriteItem
  isWriting : Bool
deriving DecidableEq

/-- `BleService.cleanup`: nulls the device and characteristic, resets the MTU,
empties the write queue and clears the worker flag.  The second component is
the list of completion-handle settlements (`resolve`/`reject` calls) the
function performs on queued items: the source performs none, it only drops the
array. -/
def cleanup (_s : BleState) : BleState × List (Nat × WriteOutcome) :=
  ({ device := none, dataCharacteristic := none, mtu := DEFAULT_MTU,
     writeQueue := [], isWriting := false }, [])

/-- A concrete `BleService` state with one pending write in the queue. -/
def stateWithPending : BleState :=
  { device := some 1, dataCharacteristic := some 2, mtu := 247,
    writeQueue := [{ id := 0, data := [48, 1], timestamp := 0 }], isWriting := false }

/-! ## Voice pipeline: `VoiceService` (`services/VoiceService.ts`) -/

/-- `VoiceState` from VoiceService.ts. -/
inductive VoiceState
  | idle
  | listening
  | processing
  | speaking
deriving DecidableEq

/-- `VoiceDataPacket` from audio.ts: `timestamp` is the 4-byte little-endian
capture timestamp as read back by the JS bitwise-or chain (a signed 32-bit
reinterpretation, hence `Int`). -/
structure VoicePacket where
  sequence : Nat
  timestamp : Int
  opusData : List Nat
deriving DecidableEq

/-- `VoiceSession` from VoiceService.ts. -/
structure VoiceSession where
  startTime : Nat
  packets : List VoicePacket
  ended : Bool
deriving DecidableEq

/-- `VoiceResult` from VoiceService.ts. -/
structure VoiceResult where
  transcript : String
  response : String
deriving DecidableEq

/-- `VoiceClipInfo` from VoiceService.ts. -/
structure VoiceClipInfo where
  timestamp : Nat
  duration : Int
  packetCount : Nat
  totalBytes : Nat
  sequenceGaps : Nat
  sampleRate : Nat
deriving DecidableEq

/-- The stub `OpusDecoder.decode` (VoiceService.ts lines 73-79): one fixed
20 ms block of silence per coded frame, `16000 * 20 / 1000 = 320` samples. -/
def opusDecode (_frame : List Nat) : List Int :=
  List.replicate (16000 * 20 / 1000) 0

/-- The mutable fields of the `VoiceService` singleton. -/
structure VoiceSvc where
  state : VoiceState
  currentSession : Option VoiceSession
  lastResult : Option VoiceResult
  lastClipInfo : Option VoiceClipInfo
  livePacketCount : Nat
  liveBytesReceived : Nat
  liveSequenceGaps : Nat
  liveRecordingStart : Nat
  lastClipPcm : Option (List Int)
  sequenceGaps : Nat
  pcmBuffer : List (List Int)
  opusFrames : List (List Nat)
  expectedSequence : Nat
deriving DecidableEq

/-- The `VoiceService` constructor state. -/
def initVoiceSvc : VoiceSvc :=
  { state := VoiceState.idle, currentSession := none, lastResult := none,
    lastClipInfo := none, livePacketCount := 0, liveBytesReceived := 0,
    liveSequenceGaps := 0, liveRecordingStart := 0, lastClipPcm := none,
    sequenceGaps := 0, pcmBuffer := [], opusFrames := [], expectedSequence := 0 }

/-- `VoiceService.handleVoiceStart` (VoiceService.ts lines 143-171), with
`now = Date.now()`: unconditionally opens a fresh listening session and resets
every per-session counter and buffer.  There is no guard on the current
state. -/
def handleVoiceStart (now : Nat) (s : VoiceSvc) : VoiceSvc :=
  { s with
    state := VoiceState.listening,
    currentSession := some { startTime := now, packets := [], ended := false },
    livePacketCount := 0,
    liveBytesReceived := 0,
    liveSequenceGaps := 0,
    liveRecordingStart := now,
    pcmBuffer := [],
    opusFrames := [],
    expectedSequence := 0,
    sequenceGaps := 0 }

/-- The 2-byte big-endian sequence number `(payload[0] << 8) | payload[1]` of a
voice data packet (payload bytes are < 256, so the bitwise-or is addition). -/
def seqOf (payload : List Nat) : Nat :=
  payload.getD 0 0 * 256 + payload.getD 1 0

/-- `VoiceService.handleVoiceData` (VoiceService.ts lines 176-227).  Ignored
without an active listening session or when shorter than the 6-byte header.
Otherwise: parse sequence/timestamp/opus bytes, add `Math.abs(sequence -
expectedSequence)` to the gap counters on mismatch, advance
`expectedSequence = (sequence + 1) & 0xFFFF`, store the packet, update live
stats, and append one decoded block to the PCM accumulator. -/
def handleVoiceData (payload : List Nat) (s : VoiceSvc) : VoiceSvc :=
  match s.currentSession with
  | none => s
  | some sess =>
    if s.state ≠ VoiceState.listening then s
    else if payload.length < 6 then s
    else
      let sequence := seqOf payload
      let timestampRaw := payload.getD 2 0 + payload.getD 3 0 * 256 +
        payload.getD 4 0 * 65536 + payload.getD 5 0 * 16777216
      let timestamp : Int :=
        if timestampRaw < 2 ^ 31 then (timestampRaw : Int) else (timestampRaw : Int) - 2 ^ 32
      let opusData := payload.drop 6
      let gapAdd : Nat :=
        if sequence ≠ s.expectedSequence then
          ((sequence : Int) - (s.expectedSequence : Int)).natAbs
        else 0
      { s with
        sequenceGaps := s.sequenceGaps + gapAdd,
        liveSequenceGaps := s.liveSequenceGaps + gapAdd,
        expectedSequence := (sequence + 1) % 65536,
        currentSession := some { sess with
          packets := sess.packets ++
            [{ sequence := sequence, timestamp := timestamp, opusData := opusData }] },
        opusFrames := s.opusFrames ++ [opusData],
        livePacketCount := s.livePacketCount + 1,
        liveBytesReceived := s.liveBytesReceived + opusData.length,
        pcmBuffer := s.pcmBuffer ++ [opusDecode opusData] }

/-- The outcomes of the three external collaborators for one processing run:
`stt` is `speechToText` (its thrown errors, e.g. a failed dynamic import;
its internal catches already return placeholder strings), `ai` is
`getAiResponse`, `speak` is `speakResponse` via the audio routing service.
`Except.error` models a thrown rejection reaching `processVoiceSession`. -/
structure VoiceEnv where
  stt : Except Unit String
  ai : Except Unit String
  speak : Except Unit Unit

/-- `transcript && transcript.trim() && !transcript.includes('[')` from
VoiceService.ts line 299 (JS string truthiness = non-empty). -/
def transcriptMeaningful (t : String) : Bool :=
  !t.isEmpty && !t.trim.isEmpty && !(t.contains '[')

/-- `VoiceService.processVoiceSession` (VoiceService.ts lines 270-328):
early-returns without a session; otherwise concatenates the PCM buffers,
saves the clip, runs STT → (conditionally) AI → TTS inside a try/catch, and in
the `finally` block always sets `state = idle`, clears `currentSession` and
empties the accumulators. -/
def processVoiceSession (env : VoiceEnv) (s : VoiceSvc) : VoiceSvc :=
  match s.currentSession with
  | none => s
  | some _ =>
    let combinedPcm := s.pcmBuffer.flatten
    let s1 := { s with lastClipPcm := some combinedPcm }
    let s2 :=
      match env.stt with
      | Except.error _ => s1
      | Except.ok transcript =>
        if transcriptMeaningful transcript then
          match env.ai with
          | Except.error _ => s1
          | Except.ok response =>
            let sSpeak := { s1 with state := VoiceState.speaking }
            match env.speak with
            | Except.error _ => sSpeak
            | Except.ok _ =>
              { sSpeak with
                lastResult := some { transcript := transcript, response := response } }
        else s1
    { s2 with
      state := VoiceState.idle,
      currentSession := none,
      pcmBuffer := [],
      opusFrames := [] }

/-- `VoiceService.handleVoiceEnd` (VoiceService.ts lines 232-264), with
`now = Date.now()`: no-op without a session; otherwise records the clip info,
marks the session ended, enters `processing`, and runs
`processVoiceSession`. -/
def handleVoiceEnd (now : Nat) (env : VoiceEnv) (s : VoiceSvc) : VoiceSvc :=
  match s.currentSession with
  | none => s
  | some sess =>
    let duration : Int := (now : Int) - (sess.startTime : Int)
    let totalBytes := (s.opusFrames.map List.length).sum
    let s1 := { s with
      lastClipInfo := some
        { timestamp := sess.startTime, duration := duration,
          packetCount := sess.packets.length, totalBytes := totalBytes,
          sequenceGaps := s.sequenceGaps, sampleRate := 16000 },
      currentSession := some { sess with ended := true },
      state := VoiceState.processing }
    processVoiceSession env s1

/-- A minimal 6-byte voice data payload carrying sequence number `q` (big
endian) and timestamp 0, with no opus bytes. -/
def mkSeqPayload (q : Nat) : List Nat :=
  [q / 256 % 256, q % 256, 0, 0, 0, 0]

/-- Feed a list of sequence numbers as voice data messages. -/
def feedSeqs (seqs : List Nat) (s : VoiceSvc) : VoiceSvc :=
  seqs.foldl (fun st q => handleVoiceData (mkSeqPayload q) st) s

/-- A fresh voice session opened at time 0. -/
def voiceFresh : VoiceSvc := handleVoiceStart 0 initVoiceSvc

/-- An environment in which every external collaborator throws. -/
def allThrowEnv : VoiceEnv :=
  { stt := Except.error (), ai := Except.error (), speak := Except.error () }

end Tapir

/-! # Theorems -/

namespace Tapir

/-! ## Encoder helper lemmas -/

theorem fragFrames_nil (t : Nat) (b : Bool) : fragFrames t b [] = [] := by
  rw [fragFrames]
  simp

theorem doSendSerialData_small (d : List Nat) (h : d.length ≤ MAX_CHUNK_SIZE) :
    doSendSerialData d =
      [[CATEGORY_ID, PacketFlag.COMPLETE, d.length % 256, d.length / 256 % 256] ++ d] := by
  rw [doSendSerialData, if_pos h]

theorem doSendSerialData_two (d : List Nat) (h : d.length = MAX_CHUNK_SIZE + 1) :
    doSendSerialData d =
      [[CATEGORY_ID, PacketFlag.FIRST, 251, 1] ++ d.take 506,
       [CATEGORY_ID, PacketFlag.LAST] ++ d.drop 506] := by
  have hne : d ≠ [] := by
    intro hd
    rw [hd] at h
    simp [MAX_CHUNK_SIZE] at h
  rw [doSendSerialData, if_neg (by omega)]
  rw [fragFrames, dif_neg hne, if_pos rfl]
  have hmin : min d.length MAX_CHUNK_SIZE = 506 := by
    rw [h]
    simp [MAX_CHUNK_SIZE]
  have hdroplen : (d.drop 506).length = 1 := by
    simp [List.length_drop, h, MAX_CHUNK_SIZE]
  have hdropne : d.drop 506 ≠ [] := by
    intro hd
    rw [hd] at hdroplen
    simp at hdroplen
  rw [hmin, h]
  rw [fragFrames, dif_neg hdropne]
  simp only [Bool.false_eq_true, if_false]
  rw [if_pos (by rw [hdroplen]; simp [MAX_CHUNK_SIZE])]
  rw [List.drop_length, fragFrames_nil]
  norm_num [MAX_CHUNK_SIZE]

theorem doSendSerialData_three (d : List Nat) (h : d.length = 2 * MAX_CHUNK_SIZE + 10) :
    doSendSerialData d =
      [[CATEGORY_ID, PacketFlag.FIRST, 254, 3] ++ d.take 506,
       [CATEGORY_ID, PacketFlag.CONTINUE] ++ (d.drop 506).take 506,
       [CATEGORY_ID, PacketFlag.LAST] ++ (d.drop 506).drop 506] := by
  have hlen : d.length = 1022 := by
    rw [h]
    decide
  have hne : d ≠ [] := by
    intro hd
    rw [hd] at hlen
    simp at hlen
  rw [doSendSerialData, if_neg (by rw [hlen]; decide)]
  rw [fragFrames, dif_neg hne, if_pos rfl]
  have hmin : min d.length MAX_CHUNK_SIZE = 506 := by
    rw [hlen]
    decide
  have hdroplen : (d.drop 506).length = 516 := by
    simp only [List.length_drop]
    omega
  have hdropne : d.drop 506 ≠ [] := by
    intro hd
    rw [hd] at hdroplen
    simp at hdroplen
  rw [hmin, hlen]
  rw [fragFrames, dif_neg hdropne]
  simp only [Bool.false_eq_true, if_false]
  rw [if_neg (by rw [hdroplen]; decide)]
  have hdrop2len : ((d.drop 506).drop 506).length = 10 := by
    simp only [List.length_drop]
    omega
  have hdrop2ne : (d.drop 506).drop 506 ≠ [] := by
    intro hd
    rw [hd] at hdrop2len
    simp at hdrop2len
  have hMAX : MAX_CHUNK_SIZE = 506 := rfl
  rw [hMAX]
  rw [fragFrames, dif_neg hdrop2ne]
  simp only [Bool.false_eq_true, if_false]
  rw [if_pos (by rw [hdrop2len]; decide)]
  rw [List.drop_length, fragFrames_nil]

end Tapir

/-- Claim C8: a payload of exactly `MAX_CHUNK_SIZE` bytes encodes to exactly one
frame with flag COMPLETE; a payload of `MAX_CHUNK_SIZE + 1` bytes encodes to
exactly two frames, FIRST then LAST, with no CONTINUE frame. -/
theorem Tapir.C8_encode_boundary (d1 d2 : List Nat)
    (h1 : d1.length = Tapir.MAX_CHUNK_SIZE)
    (h2 : d2.length = Tapir.MAX_CHUNK_SIZE + 1) :
    Tapir.doSendSerialData d1 =
      [[Tapir.CATEGORY_ID, Tapir.PacketFlag.COMPLETE, 250, 1] ++ d1] ∧
    Tapir.doSendSerialData d2 =
      [[Tapir.CATEGORY_ID, Tapir.PacketFlag.FIRST, 251, 1] ++ d2.take 506,
       [Tapir.CATEGORY_ID, Tapir.PacketFlag.LAST] ++ d2.drop 506] := by
  constructor
  · rw [Tapir.doSendSerialData_small d1 (by omega)]
    rw [h1]
    norm_num [Tapir.MAX_CHUNK_SIZE]
  · exact Tapir.doSendSerialData_two d2 h2

/-- Witness for C8 at concrete payloads of 506 and 507 bytes. -/
theorem Tapir.C8_encode_boundary_witness :
    Tapir.doSendSerialData (List.replicate 506 9) =
      [[Tapir.CATEGORY_ID, Tapir.PacketFlag.COMPLETE, 250, 1] ++ List.replicate 506 9] ∧
    Tapir.doSendSerialData (List.replicate 507 9) =
      [[Tapir.CATEGORY_ID, Tapir.PacketFlag.FIRST, 251, 1] ++ (List.replicate 507 9).take 506,
       [Tapir.CATEGORY_ID, Tapir.PacketFlag.LAST] ++ (List.replicate 507 9).drop 506] :=
  Tapir.C8_encode_boundary (List.replicate 506 9) (List.replicate 507 9)
    (by rw [List.length_replicate]; decide) (by rw [List.length_replicate]; decide)

/-- Claim C9: a payload of `2 * MAX_CHUNK_SIZE + 10` bytes encodes to exactly
three frames FIRST, CONTINUE, LAST in that order, chunked greedily left to
right: FIRST and CONTINUE carry full 506-byte chunks and LAST carries the
10-byte remainder. -/
theorem Tapir.C9_encode_three_frames (d : List Nat)
    (h : d.length = 2 * Tapir.MAX_CHUNK_SIZE + 10) :
    Tapir.doSendSerialData d =
      [[Tapir.CATEGORY_ID, Tapir.PacketFlag.FIRST, 254, 3] ++ d.take 506,
       [Tapir.CATEGORY_ID, Tapir.PacketFlag.CONTINUE] ++ (d.drop 506).take 506,
       [Tapir.CATEGORY_ID, Tapir.PacketFlag.LAST] ++ (d.drop 506).drop 506] ∧
    (d.take 506).length = 506 ∧
    ((d.drop 506).take 506).length = 506 ∧
    ((d.drop 506).drop 506).length = 10 := by
  have hlen : d.length = 1022 := by
    rw [h]
    decide
  refine ⟨Tapir.doSendSerialData_three d h, ?_, ?_, ?_⟩
  · simp only [List.length_take]
    omega
  · simp only [List.length_take, List.length_drop]
    omega
  · simp only [List.length_drop]
    omega

/-- Witness for C9 at a concrete 1022-byte payload. -/
theorem Tapir.C9_encode_three_frames_witness :
    Tapir.doSendSerialData (List.replicate 1022 5) =
      [[Tapir.CATEGORY_ID, Tapir.PacketFlag.FIRST, 254, 3] ++ (List.replicate 1022 5).take 506,
       [Tapir.CATEGORY_ID, Tapir.PacketFlag.CONTINUE] ++
         ((List.replicate 1022 5).drop 506).take 506,
       [Tapir.CATEGORY_ID, Tapir.PacketFlag.LAST] ++
         ((List.replicate 1022 5).drop 506).drop 506] ∧
    ((List.replicate 1022 5).take 506).length = 506 ∧
    (((List.replicate 1022 5).drop 506).take 506).length = 506 ∧
    (((List.replicate 1022 5).drop 506).drop 506).length = 10 :=
  Tapir.C9_encode_three_frames (List.replicate 1022 5)
    (by rw [List.length_replicate]; decide)

namespace Tapir

/-! ## Receive-path helper lemmas -/

theorem handleNotification_short (v : List Nat) (h : v.length < 4) :
    handleNotification v = RxEffect.dropTooShort := by
  rw [handleNotification, if_pos h]

theorem handleNotification_nonComplete (c f a b : Nat) (l : List Nat) (hf : f ≠ 0) :
    handleNotification (c :: f :: a :: b :: l) = RxEffect.dropFragmented f := by
  rw [handleNotification]
  rw [if_neg (by simp)]
  simp only [List.getD_cons_succ, List.getD_cons_zero]
  rw [if_pos (by simpa [PacketFlag.COMPLETE] using hf)]

theorem handleNotification_complete (a b : Nat) (p : List Nat) (hp : 1 ≤ p.length)
    (hv : handleVoiceMessage (p.getD 0 0) (p.drop 1) = none) :
    handleNotification (CATEGORY_ID :: PacketFlag.COMPLETE :: a :: b :: p) =
      RxEffect.deliver (p.getD 0 0) (p.drop 1) := by
  rw [handleNotification]
  rw [if_neg (by simp)]
  simp only [List.getD_cons_succ, List.getD_cons_zero, List.drop_succ_cons,
    List.drop_zero]
  rw [if_neg (by simp [PacketFlag.COMPLETE])]
  rw [if_pos hp]
  rw [hv]

end Tapir

/-- Claim C1 counterexample: a payload of 507 bytes (within the claimed bound
`10 * MAX_CHUNK_SIZE`) is fragmented by `doSendSerialData` into FIRST and LAST
frames, but `handleNotification` drops every non-COMPLETE frame (fragment
reassembly is an unimplemented TODO), so no message at all is delivered —
the round trip does not reconstruct the payload. -/
theorem Tapir.C1_counterexample :
    (List.replicate 507 7).length ≤ 10 * Tapir.MAX_CHUNK_SIZE ∧
    Tapir.deliveredMessages
      (Tapir.rxRun (Tapir.doSendSerialData (List.replicate 507 7))) = [] := by
  constructor
  · rw [List.length_replicate]
    decide
  · rw [Tapir.doSendSerialData_two _ (by rw [List.length_replicate]; decide)]
    have h1 : Tapir.handleNotification
        ([Tapir.CATEGORY_ID, Tapir.PacketFlag.FIRST, 251, 1] ++
          (List.replicate 507 7).take 506) =
        Tapir.RxEffect.dropFragmented Tapir.PacketFlag.FIRST :=
      Tapir.handleNotification_nonComplete Tapir.CATEGORY_ID Tapir.PacketFlag.FIRST 251 1
        ((List.replicate 507 7).take 506) (by decide)
    have h2 : Tapir.handleNotification
        ([Tapir.CATEGORY_ID, Tapir.PacketFlag.LAST] ++ (List.replicate 507 7).drop 506) =
        Tapir.RxEffect.dropTooShort := by
      apply Tapir.handleNotification_short
      simp only [List.length_append, List.length_cons, List.length_nil,
        List.length_drop, List.length_replicate]
      omega
    rw [Tapir.rxRun]
    simp only [List.map_cons, List.map_nil]
    rw [h1, h2]
    rfl

/-- Claim C1 (amended): for payloads of length `1 ≤ L ≤ MAX_CHUNK_SIZE` whose
leading message-type byte is not one of the voice/audio types intercepted by
`handleVoiceMessage`, encode-then-receive delivers exactly one message that
reconstructs the payload (type byte plus message payload).  Empty payloads are
ignored by the receiver and fragmented payloads (`L > MAX_CHUNK_SIZE`) are
dropped, reassembly being unimplemented. -/
theorem Tapir.C1_roundtrip_small (p : List Nat) (h1 : 1 ≤ p.length)
    (h2 : p.length ≤ Tapir.MAX_CHUNK_SIZE)
    (h3 : Tapir.handleVoiceMessage (p.getD 0 0) (p.drop 1) = none) :
    Tapir.deliveredMessages (Tapir.rxRun (Tapir.doSendSerialData p)) =
      [(p.getD 0 0, p.drop 1)] ∧
    p.getD 0 0 :: p.drop 1 = p := by
  constructor
  · rw [Tapir.doSendSerialData_small p h2]
    have hn := Tapir.handleNotification_complete (p.length % 256) (p.length / 256 % 256)
      p h1 h3
    simp only [Tapir.rxRun, List.map, List.cons_append, List.nil_append] at *
    rw [hn]
    simp [Tapir.deliveredMessages]
  · cases p with
    | nil => simp at h1
    | cons a tl => simp

/-- Witness for the amended C1 at the concrete 3-byte ECHO payload. -/
theorem Tapir.C1_roundtrip_small_witness :
    Tapir.deliveredMessages
      (Tapir.rxRun (Tapir.doSendSerialData [Tapir.MessageType.ECHO, 1, 2])) =
      [(([Tapir.MessageType.ECHO, 1, 2] : List Nat).getD 0 0,
        ([Tapir.MessageType.ECHO, 1, 2] : List Nat).drop 1)] ∧
    ([Tapir.MessageType.ECHO, 1, 2] : List Nat).getD 0 0 ::
        ([Tapir.MessageType.ECHO, 1, 2] : List Nat).drop 1 =
      [Tapir.MessageType.ECHO, 1, 2] :=
  Tapir.C1_roundtrip_small [Tapir.MessageType.ECHO, 1, 2] (by decide) (by decide) (by decide)

/-- Claim C2 counterexample: on a successful connect (fresh, not already
connected), the state assignments of `DeviceStore.connect` are exactly
CONNECTING then READY — the CONNECTED state is never entered, so the claimed
Connecting → Connected → Ready progression does not happen. -/
theorem Tapir.C2_counterexample :
    Tapir.deviceStoreConnectTrace false true =
      [Tapir.ConnectionState.connecting, Tapir.ConnectionState.ready] ∧
    Tapir.ConnectionState.connected ∉ Tapir.deviceStoreConnectTrace false true := by
  decide

/-- Claim C2 (amended): on every successful connect the state passes directly
from Connecting to Ready (preceded by Disconnected when tearing down a
previous connection); the intermediate Connected state, though defined in the
`ConnectionState` enum, is never entered — MTU read-back, priority request and
notification subscription all happen inside the single Connecting phase. -/
theorem Tapir.C2_connecting_straight_to_ready (already : Bool) :
    Tapir.deviceStoreConnectTrace already true =
      (if already then [Tapir.ConnectionState.disconnected] else []) ++
        [Tapir.ConnectionState.connecting, Tapir.ConnectionState.ready] ∧
    Tapir.ConnectionState.connected ∉ Tapir.deviceStoreConnectTrace already true := by
  cases already <;> decide

/-- Witness for the amended C2 at a concrete fresh successful connect. -/
theorem Tapir.C2_connecting_straight_to_ready_witness :
    Tapir.deviceStoreConnectTrace false true =
      (if false then [Tapir.ConnectionState.disconnected] else []) ++
        [Tapir.ConnectionState.connecting, Tapir.ConnectionState.ready] ∧
    Tapir.ConnectionState.connected ∉ Tapir.deviceStoreConnectTrace false true :=
  Tapir.C2_connecting_straight_to_ready false

/-- Claim C3 counterexample: a state with one pending write in the queue is
torn down by `cleanup`, which empties the queue while performing zero
completion-handle settlements — the pending item is silently discarded, not
completed with a typed failure, and its completion handle stays unresolved
forever. -/
theorem Tapir.C3_counterexample :
    Tapir.stateWithPending.writeQueue =
      [{ id := 0, data := [48, 1], timestamp := 0 }] ∧
    (Tapir.cleanup Tapir.stateWithPending).2 = [] ∧
    (Tapir.cleanup Tapir.stateWithPending).1.writeQueue = [] := by
  exact ⟨rfl, rfl, rfl⟩

/-- Claim C3 (amended): teardown (`cleanup`, run on disconnect) resets the
connection fields and empties the write queue without settling any pending
item's completion handle — pending writes are silently dropped, not failed.
(Writes receive a typed failure only at dequeue time, via the timeout check or
a thrown frame write.) -/
theorem Tapir.C3_cleanup_discards (s : Tapir.BleState) :
    (Tapir.cleanup s).1.writeQueue = [] ∧
    (Tapir.cleanup s).2 = [] ∧
    (Tapir.cleanup s).1.isWriting = false ∧
    (Tapir.cleanup s).1.device = none ∧
    (Tapir.cleanup s).1.mtu = Tapir.DEFAULT_MTU :=
  ⟨rfl, rfl, rfl, rfl, rfl⟩

/-- Claim C10: `handleVoiceStart` is accepted in every state — whatever the
current state and session, it unconditionally opens a fresh listening session
with expected sequence 0, gap count 0 and all accumulated buffers cleared. -/
theorem Tapir.C10_voice_start_any_state (s : Tapir.VoiceSvc) (now : Nat) :
    (Tapir.handleVoiceStart now s).state = Tapir.VoiceState.listening ∧
    (Tapir.handleVoiceStart now s).currentSession =
      some { startTime := now, packets := [], ended := false } ∧
    (Tapir.handleVoiceStart now s).expectedSequence = 0 ∧
    (Tapir.handleVoiceStart now s).sequenceGaps = 0 ∧
    (Tapir.handleVoiceStart now s).liveSequenceGaps = 0 ∧
    (Tapir.handleVoiceStart now s).livePacketCount = 0 ∧
    (Tapir.handleVoiceStart now s).liveBytesReceived = 0 ∧
    (Tapir.handleVoiceStart now s).pcmBuffer = [] ∧
    (Tapir.handleVoiceStart now s).opusFrames = [] :=
  ⟨rfl, rfl, rfl, rfl, rfl, rfl, rfl, rfl, rfl⟩

/-- Claim C4: from a fresh voice session, sequence numbers `[0,1,3,4]` yield a
gap count of 1 and `expectedSequence = 5`, while `[0,1,2,3]` yield gap count 0;
and in general, a data message whose sequence number mismatches the expected
one adds `|sequence - expected|` to the gap counter, after which
`expectedSequence` becomes `(sequence + 1) % 65536`. -/
theorem Tapir.C4_sequence_gap_accounting :
    (Tapir.feedSeqs [0, 1, 3, 4] Tapir.voiceFresh).sequenceGaps = 1 ∧
    (Tapir.feedSeqs [0, 1, 3, 4] Tapir.voiceFresh).expectedSequence = 5 ∧
    (Tapir.feedSeqs [0, 1, 2, 3] Tapir.voiceFresh).sequenceGaps = 0 ∧
    (∀ (s : Tapir.VoiceSvc) (p : List Nat),
      s.state = Tapir.VoiceState.listening → s.currentSession ≠ none →
      6 ≤ p.length → Tapir.seqOf p ≠ s.expectedSequence →
      (Tapir.handleVoiceData p s).sequenceGaps =
        s.sequenceGaps + ((Tapir.seqOf p : Int) - (s.expectedSequence : Int)).natAbs ∧
      (Tapir.handleVoiceData p s).expectedSequence = (Tapir.seqOf p + 1) % 65536) := by
  refine ⟨by decide, by decide, by decide, ?_⟩
  intro s p hstate hsess hlen hmis
  rcases hsome : s.currentSession with _ | sess
  · exact absurd hsome hsess
  have hnlt : ¬ p.length < 6 := by omega
  constructor <;>
    simp [Tapir.handleVoiceData, hsome, hstate, hnlt, hmis]

/-- Witness for C4's general mismatch clause at a fresh session receiving
sequence number 3 first. -/
theorem Tapir.C4_sequence_gap_accounting_witness :
    (Tapir.handleVoiceData (Tapir.mkSeqPayload 3) Tapir.voiceFresh).sequenceGaps = 3 ∧
    (Tapir.handleVoiceData (Tapir.mkSeqPayload 3) Tapir.voiceFresh).expectedSequence = 4 := by
  have h := Tapir.C4_sequence_gap_accounting.2.2.2 Tapir.voiceFresh (Tapir.mkSeqPayload 3)
    (by decide) (by decide) (by decide) (by decide)
  exact ⟨by rw [h.1]; decide, by rw [h.2]; decide⟩

/-- Claim C7: however the external transcription, response-generation and
speech-synthesis collaborators behave — returning values or throwing — an
end-of-stream run (`handleVoiceEnd` on a live session, which enters
`processing` and runs `processVoiceSession`) always finishes with the state
back at idle and the session cleared. -/
theorem Tapir.C7_voice_end_returns_idle (env : Tapir.VoiceEnv) (now : Nat)
    (s : Tapir.VoiceSvc) (h : s.currentSession ≠ none) :
    (Tapir.handleVoiceEnd now env s).state = Tapir.VoiceState.idle ∧
    (Tapir.handleVoiceEnd now env s).currentSession = none := by
  rcases hsome : s.currentSession with _ | sess
  · exact absurd hsome h
  constructor <;>
    simp [Tapir.handleVoiceEnd, hsome, Tapir.processVoiceSession]

/-- Witness for C7: every collaborator throws, yet the run ends idle with the
session cleared. -/
theorem Tapir.C7_voice_end_returns_idle_witness :
    (Tapir.handleVoiceEnd 100 Tapir.allThrowEnv Tapir.voiceFresh).state =
      Tapir.VoiceState.idle ∧
    (Tapir.handleVoiceEnd 100 Tapir.allThrowEnv Tapir.voiceFresh).currentSession = none :=
  Tapir.C7_voice_end_returns_idle Tapir.allThrowEnv 100 Tapir.voiceFresh (by decide)

namespace Tapir

/-! ## Write-queue invariant -/

theorem wqInv_init : wqInv wqInit := by
  refine ⟨rfl, rfl, ?_, ?_, ?_⟩
  · intro e he
    simp [wqInit] at he
  · intro it fs w hc
    simp [wqInit] at hc
  · intro _h
    exact ⟨rfl, rfl⟩

theorem wqInv_step (s : WQState) (e : WQEv) (hs : wqInv s) : wqInv (wqStep s e) := by
  obtain ⟨Q, W, C, R, S, E, N⟩ := s
  obtain ⟨hwire, horder, hok, hcur, hflag⟩ := hs
  cases e with
  | enq d now =>
    simp only [wqStep]
    refine ⟨?_, ?_, ?_, ?_, ?_⟩
    · exact hwire
    · rcases C with _ | ⟨it, fs, w⟩
      · have horder2 : List.map ServedEntry.item S ++ [] ++ Q = E := horder
        show List.map ServedEntry.item S ++ [] ++ (Q ++ [_]) = E ++ [_]
        rw [← horder2]
        simp
      · have horder2 : List.map ServedEntry.item S ++ [it] ++ Q = E := horder
        show List.map ServedEntry.item S ++ [it] ++ (Q ++ [_]) = E ++ [_]
        rw [← horder2]
        simp
    · exact hok
    · exact hcur
    · intro hfalse
      simp at hfalse
  | take now =>
    rcases C with _ | ⟨it, fs, w⟩
    · rcases Q with _ | ⟨it1, rest⟩
      · simp only [wqStep]
        exact ⟨hwire, horder, hok, hcur, hflag⟩
      · rcases W with _ | _
        · simp only [wqStep, Bool.false_eq_true, if_false]
          exact ⟨hwire, horder, hok, hcur, hflag⟩
        · by_cases ht : it1.timestamp + WRITE_TIMEOUT_MS < now
          · simp only [wqStep, if_true, if_pos ht]
            refine ⟨?_, ?_, ?_, ?_, ?_⟩
            · show R = (List.map ServedEntry.written (S ++ [_])).flatten ++ []
              rw [List.map_append, List.flatten_append]
              have hwire2 : R = (List.map ServedEntry.written S).flatten ++ [] := hwire
              rw [hwire2]
              simp
            · show List.map ServedEntry.item (S ++ [_]) ++ [] ++ rest = E
              rw [List.map_append]
              have horder2 : List.map ServedEntry.item S ++ [] ++ (it1 :: rest) = E := horder
              rw [← horder2]
              simp
            · intro en hen hok2
              rcases List.mem_append.mp hen with hold | hnew
              · exact hok en hold hok2
              · simp at hnew
                rw [hnew] at hok2
                simp at hok2
            · intro it2 fs2 w2 hc2
              simp at hc2
            · intro hfalse
              simp at hfalse
          · simp only [wqStep, if_true, if_neg ht]
            refine ⟨?_, ?_, ?_, ?_, ?_⟩
            · show R = (List.map ServedEntry.written S).flatten ++ []
              exact hwire
            · show List.map ServedEntry.item S ++ [it1] ++ rest = E
              have horder2 : List.map ServedEntry.item S ++ [] ++ (it1 :: rest) = E := horder
              rw [← horder2]
              simp
            · exact hok
            · intro it2 fs2 w2 hc2
              simp only [Option.some.injEq, Prod.mk.injEq] at hc2
              obtain ⟨h1, h2, h3⟩ := hc2
              rw [← h1, ← h2, ← h3]
              simp
            · intro hfalse
              simp at hfalse
    · simp only [wqStep]
      exact ⟨hwire, horder, hok, hcur, hflag⟩
  | write =>
    rcases C with _ | ⟨it, frames, w⟩
    · simp only [wqStep]
      exact ⟨hwire, horder, hok, hcur, hflag⟩
    · have hfull : w ++ frames = doSendSerialData it.data := hcur it frames w rfl
      have hwire2 : R = (List.map ServedEntry.written S).flatten ++ w := hwire
      have horder2 : List.map ServedEntry.item S ++ [it] ++ Q = E := horder
      cases frames with
      | nil =>
        simp only [wqStep]
        refine ⟨?_, ?_, ?_, ?_, ?_⟩
        · show R = (List.map ServedEntry.written (S ++ [_])).flatten ++ []
          rw [List.map_append, List.flatten_append, hwire2]
          simp
        · show List.map ServedEntry.item (S ++ [_]) ++ [] ++ Q = E
          rw [List.map_append, ← horder2]
          simp
        · intro en hen hok2
          rcases List.mem_append.mp hen with hold | hnew
          · exact hok en hold hok2
          · simp at hnew
            rw [hnew]
            show w = doSendSerialData it.data
            simpa using hfull
        · intro it2 fs2 w2 hc2
          simp at hc2
        · intro hfalse
          obtain ⟨hcn, _⟩ := hflag hfalse
          simp at hcn
      | cons f fs =>
        cases fs with
        | nil =>
          simp only [wqStep]
          refine ⟨?_, ?_, ?_, ?_, ?_⟩
          · show R ++ [f] = (List.map ServedEntry.written (S ++ [_])).flatten ++ []
            rw [List.map_append, List.flatten_append, hwire2]
            simp
          · show List.map ServedEntry.item (S ++ [_]) ++ [] ++ Q = E
            rw [List.map_append, ← horder2]
            simp
          · intro en hen hok2
            rcases List.mem_append.mp hen with hold | hnew
            · exact hok en hold hok2
            · simp at hnew
              rw [hnew]
              show w ++ [f] = doSendSerialData it.data
              exact hfull
          · intro it2 fs2 w2 hc2
            simp at hc2
          · intro hfalse
            obtain ⟨hcn, _⟩ := hflag hfalse
            simp at hcn
        | cons f2 fs2 =>
          simp only [wqStep]
          refine ⟨?_, ?_, ?_, ?_, ?_⟩
          · show R ++ [f] = (List.map ServedEntry.written S).flatten ++ (w ++ [f])
            rw [hwire2]
            simp
          · show List.map ServedEntry.item S ++ [it] ++ Q = E
            exact horder2
          · exact hok
          · intro it3 fs3 w3 hc3
            simp only [Option.some.injEq, Prod.mk.injEq] at hc3
            obtain ⟨h1, h2, h3⟩ := hc3
            rw [← h1, ← h2, ← h3]
            rw [List.append_assoc]
            simpa using hfull
          · intro hfalse
            obtain ⟨hcn, _⟩ := hflag hfalse
            simp at hcn
  | fail =>
    rcases C with _ | ⟨it, frames, w⟩
    · simp only [wqStep]
      exact ⟨hwire, horder, hok, hcur, hflag⟩
    · have hwire2 : R = (List.map ServedEntry.written S).flatten ++ w := hwire
      have horder2 : List.map ServedEntry.item S ++ [it] ++ Q = E := horder
      simp only [wqStep]
      refine ⟨?_, ?_, ?_, ?_, ?_⟩
      · show R = (List.map ServedEntry.written (S ++ [_])).flatten ++ []
        rw [List.map_append, List.flatten_append, hwire2]
        simp
      · show List.map ServedEntry.item (S ++ [_]) ++ [] ++ Q = E
        rw [List.map_append, ← horder2]
        simp
      · intro en hen hok2
        rcases List.mem_append.mp hen with hold | hnew
        · exact hok en hold hok2
        · simp at hnew
          rw [hnew] at hok2
          simp at hok2
      · intro it2 fs2 w2 hc2
        simp at hc2
      · intro hfalse
        obtain ⟨hcn, _⟩ := hflag hfalse
        simp at hcn
  | finish =>
    rcases C with _ | ⟨it, frames, w⟩
    · rcases Q with _ | ⟨it1, rest⟩
      · simp only [wqStep]
        refine ⟨hwire, horder, hok, hcur, ?_⟩
        intro _h
        exact ⟨rfl, rfl⟩
      · simp only [wqStep]
        exact ⟨hwire, horder, hok, hcur, hflag⟩
    · simp only [wqStep]
      exact ⟨hwire, horder, hok, hcur, hflag⟩
theorem wqInv_run (evs : List WQEv) : wqInv (wqRun evs) := by
  have key : ∀ t : WQState, wqInv t → wqInv (List.foldl wqStep t evs) := by
    induction evs with
    | nil =>
      intro t ht
      exact ht
    | cons e tl ih =>
      intro t ht
      exact ih (wqStep t e) (wqInv_step t e ht)
  exact key wqInit wqInv_init

end Tapir

/-- Claim C5: over every event trace (arbitrary interleaving of producer
enqueues and drain-worker actions) ending with no item in flight, the frames
on the transport are exactly the concatenation of the per-payload frame blocks
in service order, the service order followed by the backlog is exactly the
submission order (strict FIFO, no interleaving between payloads), and every
successfully completed item had all frames of `doSendSerialData` of its
payload written. -/
theorem Tapir.C5_write_queue_fifo (evs : List Tapir.WQEv)
    (h : (Tapir.wqRun evs).current = none) :
    (Tapir.wqRun evs).wire =
      ((Tapir.wqRun evs).served.map Tapir.ServedEntry.written).flatten ∧
    (Tapir.wqRun evs).served.map Tapir.ServedEntry.item ++ (Tapir.wqRun evs).queue =
      (Tapir.wqRun evs).enqueued ∧
    (∀ e ∈ (Tapir.wqRun evs).served, e.outcome = Tapir.WriteOutcome.ok →
      e.written = Tapir.doSendSerialData e.item.data) := by
  obtain ⟨hwire, horder, hok, _hcur, _hflag⟩ := Tapir.wqInv_run evs
  refine ⟨?_, ?_, hok⟩
  · rw [hwire]
    simp [Tapir.currentWritten, h]
  · rw [← horder]
    simp [Tapir.currentItems, h]

/-- Witness for C5 on the concrete two-payload demonstration trace. -/
theorem Tapir.C5_write_queue_fifo_witness :
    (Tapir.wqRun Tapir.wqDemo).wire =
      ((Tapir.wqRun Tapir.wqDemo).served.map Tapir.ServedEntry.written).flatten ∧
    (Tapir.wqRun Tapir.wqDemo).served.map Tapir.ServedEntry.item ++
        (Tapir.wqRun Tapir.wqDemo).queue =
      (Tapir.wqRun Tapir.wqDemo).enqueued :=
  ⟨(Tapir.C5_write_queue_fifo Tapir.wqDemo (by decide)).1,
   (Tapir.C5_write_queue_fifo Tapir.wqDemo (by decide)).2.1⟩

/-- Claim C6: when the drain worker dequeues an item whose backlog wait
exceeded `WRITE_TIMEOUT_MS`, the item is completed as a timeout failure with
none of its frames written — the wire is untouched — and the rest of the queue
is left intact for normal processing. -/
theorem Tapir.C6_write_timeout_at_dequeue (s : Tapir.WQState) (it : Tapir.WriteItem)
    (rest : List Tapir.WriteItem) (now : Nat) (hw : s.isWriting = true)
    (hc : s.current = none) (hq : s.queue = it :: rest)
    (ht : it.timestamp + Tapir.WRITE_TIMEOUT_MS < now) :
    Tapir.wqStep s (Tapir.WQEv.take now) =
      { s with
        queue := rest,
        served := s.served ++
          [{ item := it, written := [], outcome := Tapir.WriteOutcome.timeout }] } ∧
    (Tapir.wqStep s (Tapir.WQEv.take now)).wire = s.wire ∧
    (Tapir.wqStep s (Tapir.WQEv.take now)).current = none := by
  have hstep : Tapir.wqStep s (Tapir.WQEv.take now) =
      { s with
        queue := rest,
        served := s.served ++
          [{ item := it, written := [], outcome := Tapir.WriteOutcome.timeout }] } := by
    simp only [Tapir.wqStep, hc, hq, hw, if_true, if_pos ht]
  refine ⟨hstep, ?_, ?_⟩
  · rw [hstep]
  · rw [hstep]
    exact hc

/-- Witness for C6: one item enqueued at time 0, dequeued at time 6000. -/
theorem Tapir.C6_write_timeout_at_dequeue_witness :
    Tapir.wqStep Tapir.wqOneItemState (Tapir.WQEv.take 6000) =
      { Tapir.wqOneItemState with
        queue := [],
        served := Tapir.wqOneItemState.served ++
          [{ item := { id := 0, data := [48, 7], timestamp := 0 },
             written := [], outcome := Tapir.WriteOutcome.timeout }] } ∧
    (Tapir.wqStep Tapir.wqOneItemState (Tapir.WQEv.take 6000)).wire =
      Tapir.wqOneItemState.wire ∧
    (Tapir.wqStep Tapir.wqOneItemState (Tapir.WQEv.take 6000)).current = none :=
  Tapir.C6_write_timeout_at_dequeue Tapir.wqOneItemState
    { id := 0, data := [48, 7], timestamp := 0 } [] 6000
    (by decide) (by decide) (by decide) (by decide)
